import Mathlib

/-!
Verification of the navigation guard, security-header middleware and
voice-feedback shim of the point-payment frontend.

The embedding follows the source files directly:
* `safeNavigate`, `navigateToHome`, `navigateToTerminal` embed the
  navigation guard module.
* `middleware` and `configMatcher` embed the security-header middleware
  and its route matcher.
* `speak`, `stopSpeak`, `isTTSEnabled` and the `VoiceFeedback` class
  embed the no-op text-to-speech shim.

Effects (router invocations, location writes, console output, speech
output) are made observable as explicit event traces; the browser
environment (the global `window`, the globally registered router handle
and the throwing behaviour of its operations and of `location.assign`)
is passed in explicitly as state.
-/

/-- Observable events emitted by the navigation guard. -/
inductive Event where
  | consoleLog (msg : String)
  | consoleWarn (msg : String)
  | routerReplace (path : String) (shallow : Bool)
  | routerPush (path : String)
  | locationAssign (path : String)
  deriving Repr, DecidableEq

/-- An event is a navigation call proper (router invocation or
location write), as opposed to console output. -/
def Event.isNav : Event → Bool
  | .routerReplace _ _ => true
  | .routerPush _ => true
  | .locationAssign _ => true
  | _ => false

/-- The globally registered router handle (`window.__NEXT_ROUTER`).
Its `replace`/`push` operations belong to the surrounding framework;
whether a given call throws synchronously is part of the environment. -/
structure Router where
  replaceThrows : Bool
  pushThrows : Bool
  deriving Repr, DecidableEq

/-- The browser navigation context: current `location.pathname`, the
router-presence flag `__NEXT_ROUTER_PRESENT`, the optional router
handle `__NEXT_ROUTER`, and whether `location.assign` throws. -/
structure Window where
  pathname : String
  nextRouterPresent : Bool
  router : Option Router
  assignThrows : Bool
  deriving Repr, DecidableEq

/-- Outcome of a call: a returned boolean, or a propagated exception. -/
inductive NavOutcome where
  | ret (value : Bool)
  | threw
  deriving Repr, DecidableEq

/-- Embedding of `safeNavigate(targetPath, useReplace)`.

The branches follow the source in order: no `window` returns `false`;
a target equal to the current pathname logs and returns `false`; when
the router-presence flag is truthy and the handle is truthy the router
is invoked (replace with `shallow: true`, or push) outside any
`try`/`catch`; otherwise `location.assign` is attempted inside a
`try`/`catch` that converts a throw into a warning and `false`. -/
def safeNavigate (window : Option Window) (targetPath : String)
    (useReplace : Bool := true) : NavOutcome × List Event :=
  match window with
  | none => (.ret false, [])
  | some w =>
    if w.pathname == targetPath then
      (.ret false, [.consoleLog ("🚫 Same URL navigation skipped: " ++ targetPath)])
    else
      match (if w.nextRouterPresent then w.router else none) with
      | some router =>
        if useReplace then
          if router.replaceThrows then (.threw, [.routerReplace targetPath true])
          else (.ret true, [.routerReplace targetPath true])
        else
          if router.pushThrows then (.threw, [.routerPush targetPath])
          else (.ret true, [.routerPush targetPath])
      | none =>
        if w.assignThrows then
          (.ret false, [.locationAssign targetPath,
                        .consoleWarn "Navigation fallback failed:"])
        else
          (.ret true, [.locationAssign targetPath])

/-- Embedding of `navigateToHome()`. -/
def navigateToHome (window : Option Window) : NavOutcome × List Event :=
  safeNavigate window "/" true

/-- Embedding of `navigateToTerminal()`. -/
def navigateToTerminal (window : Option Window) : NavOutcome × List Event :=
  safeNavigate window "/terminal-simple" true

/-- C1: when a navigation context exists and the target equals the
current pathname, `safeNavigate` returns `false` for either history
mode and emits no navigation call: the router is not invoked and the
location is not written. -/
theorem safeNavigate_same_path (w : Window) (targetPath : String) (b : Bool)
    (h : w.pathname = targetPath) :
    (safeNavigate (some w) targetPath b).1 = .ret false ∧
    ((safeNavigate (some w) targetPath b).2.filter Event.isNav) = [] := by
  simp [safeNavigate, h, Event.isNav]

/-- Witness for C1 at a concrete window and path. -/
theorem safeNavigate_same_path_witness :
    (safeNavigate (some ⟨"/terminal-simple", true, some ⟨false, false⟩, false⟩)
        "/terminal-simple" true).1 = .ret false ∧
    ((safeNavigate (some ⟨"/terminal-simple", true, some ⟨false, false⟩, false⟩)
        "/terminal-simple" true).2.filter Event.isNav) = [] :=
  safeNavigate_same_path ⟨"/terminal-simple", true, some ⟨false, false⟩, false⟩
    "/terminal-simple" true rfl

/-- C2: when the target differs from the current pathname and a router
handle is registered (flag set and handle present) whose operation does
not throw, replace mode invokes `replace` exactly once and push mode
invokes `push` exactly once, each returning `true` with no
full-document navigation. -/
theorem safeNavigate_router_branch (w : Window) (router : Router)
    (targetPath : String)
    (hne : w.pathname ≠ targetPath)
    (hp : w.nextRouterPresent = true) (hr : w.router = some router)
    (hrt : router.replaceThrows = false) (hpt : router.pushThrows = false) :
    safeNavigate (some w) targetPath true =
      (.ret true, [.routerReplace targetPath true]) ∧
    safeNavigate (some w) targetPath false =
      (.ret true, [.routerPush targetPath]) := by
  simp [safeNavigate, hne, hp, hr, hrt, hpt]

/-- Witness for C2 at a concrete window, router and path. -/
theorem safeNavigate_router_branch_witness :
    safeNavigate (some ⟨"/terminal-simple", true, some ⟨false, false⟩, false⟩)
      "/" true = (.ret true, [.routerReplace "/" true]) ∧
    safeNavigate (some ⟨"/terminal-simple", true, some ⟨false, false⟩, false⟩)
      "/" false = (.ret true, [.routerPush "/"]) :=
  safeNavigate_router_branch ⟨"/terminal-simple", true, some ⟨false, false⟩, false⟩
    ⟨false, false⟩ "/" (by decide) rfl rfl rfl rfl

/-- C3: when the target differs from the current pathname and no router
handle is usable (flag unset or handle absent), exactly one location
write is attempted; the call returns `true` when the write succeeds and
`false` when it throws, in which case a warning is emitted and the
exception is not propagated. -/
theorem safeNavigate_fallback (w : Window) (targetPath : String) (b : Bool)
    (hne : w.pathname ≠ targetPath)
    (hnr : w.nextRouterPresent = false ∨ w.router = none) :
    (safeNavigate (some w) targetPath b).1 = .ret (!w.assignThrows) ∧
    ((safeNavigate (some w) targetPath b).2.filter Event.isNav) =
      [.locationAssign targetPath] ∧
    (w.assignThrows = true →
      .consoleWarn "Navigation fallback failed:" ∈
        (safeNavigate (some w) targetPath b).2) := by
  rcases hnr with hnr | hnr <;>
    cases hA : w.assignThrows <;>
      simp [safeNavigate, hne, hnr, hA, Event.isNav]

/-- Witness for C3 at a concrete window with a throwing `assign`. -/
theorem safeNavigate_fallback_witness :
    (safeNavigate (some ⟨"/terminal-simple", false, none, true⟩) "/" true).1 =
      .ret (!true) ∧
    ((safeNavigate (some ⟨"/terminal-simple", false, none, true⟩) "/" true).2.filter
        Event.isNav) = [.locationAssign "/"] ∧
    (true = true →
      .consoleWarn "Navigation fallback failed:" ∈
        (safeNavigate (some ⟨"/terminal-simple", false, none, true⟩) "/" true).2) :=
  safeNavigate_fallback ⟨"/terminal-simple", false, none, true⟩ "/" true
    (by decide) (Or.inl rfl)

/-- C5: without a browser navigation context, `safeNavigate` returns
`false` and emits no event at all, for every path and history mode. -/
theorem safeNavigate_no_window (targetPath : String) (b : Bool) :
    safeNavigate none targetPath b = (.ret false, []) := rfl

/-- C6: the two wrappers are definitionally the guard applied to their
literal destination with replacement semantics, in every environment. -/
theorem wrappers_delegate (window : Option Window) :
    navigateToHome window = safeNavigate window "/" true ∧
    navigateToTerminal window = safeNavigate window "/terminal-simple" true :=
  ⟨rfl, rfl⟩

/-- C9: when the router-presence flag is set but the handle itself is
absent, the guard behaves exactly as if the flag were unset: it falls
through to the location write, and returns `true` whenever that write
does not throw. -/
theorem safeNavigate_flag_without_handle (w : Window) (targetPath : String)
    (b : Bool)
    (hne : w.pathname ≠ targetPath)
    (hp : w.nextRouterPresent = true) (hr : w.router = none) :
    safeNavigate (some w) targetPath b =
      safeNavigate (some { w with nextRouterPresent := false }) targetPath b ∧
    .locationAssign targetPath ∈ (safeNavigate (some w) targetPath b).2 ∧
    (w.assignThrows = false →
      (safeNavigate (some w) targetPath b).1 = .ret true) := by
  cases hA : w.assignThrows <;> simp [safeNavigate, hne, hp, hr, hA]

/-- Witness for C9 at a concrete window. -/
theorem safeNavigate_flag_without_handle_witness :
    safeNavigate (some ⟨"/terminal-simple", true, none, false⟩) "/" true =
      safeNavigate
        (some { (⟨"/terminal-simple", true, none, false⟩ : Window) with
                  nextRouterPresent := false }) "/" true ∧
    .locationAssign "/" ∈
      (safeNavigate (some ⟨"/terminal-simple", true, none, false⟩) "/" true).2 ∧
    ((⟨"/terminal-simple", true, none, false⟩ : Window).assignThrows = false →
      (safeNavigate (some ⟨"/terminal-simple", true, none, false⟩) "/" true).1 =
        .ret true) :=
  safeNavigate_flag_without_handle ⟨"/terminal-simple", true, none, false⟩ "/"
    true (by decide) rfl rfl

/-- C4, counterexample: in an environment where the registered router's
`replace` operation throws synchronously, the call propagates the
exception instead of returning a boolean — the router invocation is
outside the guard's `try`/`catch`. -/
theorem safeNavigate_throwing_router_counterexample :
    (safeNavigate (some ⟨"/a", true, some ⟨true, false⟩, false⟩) "/b" true).1 =
      .threw := by decide

/-- C4 (amended): in every environment whose registered router
operations do not throw synchronously, `safeNavigate` never throws: it
returns a boolean; the only exception it handles itself is a throw of
the fallback location write. -/
theorem safeNavigate_total_if_router_ok (window : Option Window)
    (targetPath : String) (b : Bool)
    (h : ∀ w router, window = some w → w.router = some router →
         router.replaceThrows = false ∧ router.pushThrows = false) :
    ∃ r, (safeNavigate window targetPath b).1 = .ret r := by
  match window with
  | none => exact ⟨false, rfl⟩
  | some w =>
    rcases hr : w.router with _ | router
    · by_cases hpath : w.pathname = targetPath
      · exact ⟨false, by simp [safeNavigate, hpath]⟩
      · refine ⟨!w.assignThrows, ?_⟩
        cases hp : w.nextRouterPresent <;> cases hA : w.assignThrows <;>
          simp [safeNavigate, hpath, hp, hr, hA]
    · obtain ⟨hrt, hpt⟩ := h w router rfl hr
      by_cases hpath : w.pathname = targetPath
      · exact ⟨false, by simp [safeNavigate, hpath]⟩
      · cases hp : w.nextRouterPresent
        · refine ⟨!w.assignThrows, ?_⟩
          cases hA : w.assignThrows <;> simp [safeNavigate, hpath, hp, hA]
        · refine ⟨true, ?_⟩
          cases b <;> simp [safeNavigate, hpath, hp, hr, hrt, hpt]

/-- Witness for the amended C4 at a concrete well-behaved environment. -/
theorem safeNavigate_total_if_router_ok_witness :
    ∃ r, (safeNavigate (some ⟨"/a", true, some ⟨false, false⟩, false⟩) "/b"
            true).1 = .ret r :=
  safeNavigate_total_if_router_ok
    (some ⟨"/a", true, some ⟨false, false⟩, false⟩) "/b" true
    (fun w router hw hr => by
      cases hw
      cases hr
      exact ⟨rfl, rfl⟩)

/-- The URL component of a request (`request.nextUrl`). -/
structure NextUrl where
  pathname : String
  deriving Repr, DecidableEq

/-- An incoming request as seen by the middleware. -/
structure NextRequest where
  nextUrl : NextUrl
  deriving Repr, DecidableEq

/-- A response under construction: the headers this middleware has set. -/
structure NextResponse where
  headers : List (String × String)
  deriving Repr, DecidableEq

/-- `NextResponse.next()`: a pass-through response with no header set
by this middleware. -/
def NextResponse.next : NextResponse := ⟨[]⟩

/-- `Headers.set(name, value)`: overwrite the value if the header is
already present, otherwise append it. -/
def NextResponse.setHeader (r : NextResponse) (name value : String) :
    NextResponse :=
  if r.headers.any (fun p => p.1 == name) then
    ⟨r.headers.map (fun p => if p.1 == name then (name, value) else p)⟩
  else
    ⟨r.headers ++ [(name, value)]⟩

/-- Embedding of `middleware(request)`. `nodeEnvDevelopment` stands for
`process.env.NODE_ENV === 'development'`. The request's pathname is
read (destructured) but not otherwise used by the function body. -/
def middleware (nodeEnvDevelopment : Bool) (request : NextRequest) :
    NextResponse :=
  let _pathname := request.nextUrl.pathname
  if nodeEnvDevelopment then
    NextResponse.next
  else
    ((NextResponse.next.setHeader "X-Frame-Options" "SAMEORIGIN").setHeader
      "X-Content-Type-Options" "nosniff")

/-- `p` is a literal prefix of `s` (on the character sequences). -/
def strHasPrefix (s p : String) : Bool := p.data.isPrefixOf s.data

/-- Embedding of the exported `config.matcher` pattern
`/((?!_next/static|_next/image|favicon.ico|public).*)`: a pathname is
matched when it starts with `/` and what follows the leading slash does
not start with any of the four excluded prefixes. -/
def configMatcher (pathname : String) : Bool :=
  strHasPrefix pathname "/" &&
    !(strHasPrefix (pathname.drop 1) "_next/static" ||
      strHasPrefix (pathname.drop 1) "_next/image" ||
      strHasPrefix (pathname.drop 1) "favicon.ico" ||
      strHasPrefix (pathname.drop 1) "public")

/-- C7: on every request whose path the matcher accepts, the middleware
is a pass-through in development, and in non-development environments
it sets exactly the two static security headers. -/
theorem middleware_security_headers (request : NextRequest)
    (_hm : configMatcher request.nextUrl.pathname = true) :
    middleware true request = NextResponse.next ∧
    (middleware false request).headers =
      [("X-Frame-Options", "SAMEORIGIN"),
       ("X-Content-Type-Options", "nosniff")] := by
  refine ⟨rfl, ?_⟩
  simp [middleware, NextResponse.setHeader, NextResponse.next]

/-- Witness for C7 at a concrete matched path. -/
theorem middleware_security_headers_witness :
    middleware true ⟨⟨"/terminal-simple"⟩⟩ = NextResponse.next ∧
    (middleware false ⟨⟨"/terminal-simple"⟩⟩).headers =
      [("X-Frame-Options", "SAMEORIGIN"),
       ("X-Content-Type-Options", "nosniff")] :=
  middleware_security_headers ⟨⟨"/terminal-simple"⟩⟩ (by decide)

/-- Observable actions of the speech subsystem. -/
inductive TTSEvent where
  | utterance (text : String)
  | cancel
  deriving Repr, DecidableEq

/-- Speech priority levels accepted by the shim's methods. -/
inductive Priority where
  | high
  | medium
  | low
  deriving Repr, DecidableEq

/-- Embedding of the async `speak(text)`: it resolves (`some ()`)
and emits no speech event. -/
def speak (_text : String) : Option Unit × List TTSEvent := (some (), [])

/-- Embedding of `stopSpeak()`: returns and emits no speech event. -/
def stopSpeak : Unit × List TTSEvent := ((), [])

/-- Embedding of `isTTSEnabled()`. -/
def isTTSEnabled : Bool := false

/-- A `VoiceFeedback` object; `objId` models JavaScript object
identity, fixed at construction (`new VoiceFeedback()`). -/
structure VoiceFeedback where
  objId : Nat
  deriving Repr, DecidableEq

/-- Module-level state of the shim: the static `instance` slot and the
allocator for fresh object identities. -/
structure TTSModuleState where
  instanceSlot : Option VoiceFeedback
  nextObjId : Nat
  deriving Repr, DecidableEq

/-- Embedding of `VoiceFeedback.getInstance()`: construct the singleton
on first use, then return the stored instance. -/
def VoiceFeedback.getInstance (s : TTSModuleState) :
    VoiceFeedback × TTSModuleState :=
  match s.instanceSlot with
  | none =>
    let inst : VoiceFeedback := ⟨s.nextObjId⟩
    (inst, ⟨some inst, s.nextObjId + 1⟩)
  | some inst => (inst, s)

/-- Embedding of `setEnabled`. -/
def VoiceFeedback.setEnabled (_self : VoiceFeedback) (_enabled : Bool) :
    List TTSEvent := []

/-- Embedding of `setVolume`. -/
def VoiceFeedback.setVolume (_self : VoiceFeedback) (_volume : Int) :
    List TTSEvent := []

/-- Embedding of `setRate`. -/
def VoiceFeedback.setRate (_self : VoiceFeedback) (_rate : Int) :
    List TTSEvent := []

/-- Embedding of the method `speak`. -/
def VoiceFeedback.speak (_self : VoiceFeedback) (_text : String)
    (_priority : Option Priority) : List TTSEvent := []

/-- Embedding of `safeSpeak`. -/
def VoiceFeedback.safeSpeak (_self : VoiceFeedback) (_text : String)
    (_priority : Option Priority) : List TTSEvent := []

/-- Embedding of `stop`. -/
def VoiceFeedback.stop (_self : VoiceFeedback) : List TTSEvent := []

/-- Embedding of `announceAmount`. -/
def VoiceFeedback.announceAmount (_self : VoiceFeedback) (_amount : Int) :
    List TTSEvent := []

/-- Embedding of `announcePaymentStart`. -/
def VoiceFeedback.announcePaymentStart (_self : VoiceFeedback) :
    List TTSEvent := []

/-- Embedding of `announcePaymentComplete`. -/
def VoiceFeedback.announcePaymentComplete (_self : VoiceFeedback) :
    List TTSEvent := []

/-- Embedding of `announceError`. -/
def VoiceFeedback.announceError (_self : VoiceFeedback) (_error : String) :
    List TTSEvent := []

/-- Embedding of `announceStep`. -/
def VoiceFeedback.announceStep (_self : VoiceFeedback) (_step : String) :
    List TTSEvent := []

/-- C8: every operation of the voice-feedback interface is observably
inert: `speak` resolves with no event, `stopSpeak` returns with no
event, `isTTSEnabled` is `false`, and every `VoiceFeedback` method
emits no event, for all arguments. -/
theorem tts_interface_inert (text step err : String) (vol rate amount : Int)
    (enabled : Bool) (priority : Option Priority) (v : VoiceFeedback) :
    speak text = (some (), []) ∧
    stopSpeak = ((), []) ∧
    isTTSEnabled = false ∧
    v.setEnabled enabled = [] ∧
    v.setVolume vol = [] ∧
    v.setRate rate = [] ∧
    v.speak text priority = [] ∧
    v.safeSpeak text priority = [] ∧
    v.stop = [] ∧
    v.announceAmount amount = [] ∧
    v.announcePaymentStart = [] ∧
    v.announcePaymentComplete = [] ∧
    v.announceError err = [] ∧
    v.announceStep step = [] := by
  repeat' constructor

/-- Module state after `n` successive `getInstance` calls. -/
def stateAfterCalls (s : TTSModuleState) : Nat → TTSModuleState
  | 0 => s
  | n + 1 => (VoiceFeedback.getInstance (stateAfterCalls s n)).2

/-- The instance returned by the call made after `n` earlier calls. -/
def nthCallResult (s : TTSModuleState) (n : Nat) : VoiceFeedback :=
  (VoiceFeedback.getInstance (stateAfterCalls s n)).1

/-- After any `getInstance` call the slot holds the returned instance. -/
theorem getInstance_fills_slot (s : TTSModuleState) :
    ((VoiceFeedback.getInstance s).2).instanceSlot =
      some (VoiceFeedback.getInstance s).1 := by
  cases h : s.instanceSlot <;> simp [VoiceFeedback.getInstance, h]

/-- On a filled slot, `getInstance` returns the slot without change. -/
theorem getInstance_filled (s : TTSModuleState) (inst : VoiceFeedback)
    (h : s.instanceSlot = some inst) :
    VoiceFeedback.getInstance s = (inst, s) := by
  simp [VoiceFeedback.getInstance, h]

/-- Every call in a sequence returns what the first call returned. -/
theorem nthCallResult_eq_head (s : TTSModuleState) (n : Nat) :
    nthCallResult s n = (VoiceFeedback.getInstance s).1 := by
  induction n with
  | zero => rfl
  | succ n ih =>
    have hslot : (stateAfterCalls s (n + 1)).instanceSlot =
        some (nthCallResult s n) := getInstance_fills_slot (stateAfterCalls s n)
    have := getInstance_filled (stateAfterCalls s (n + 1)) (nthCallResult s n)
      hslot
    unfold nthCallResult
    rw [this]
    exact ih

/-- C10: `getInstance` is idempotent: in any execution (any starting
module state), any two calls of the sequence return the very same
instance. -/
theorem getInstance_idempotent (s : TTSModuleState) (n m : Nat) :
    nthCallResult s n = nthCallResult s m := by
  rw [nthCallResult_eq_head, nthCallResult_eq_head]
